import Mathlib

/-!
Verification of the FiFuFa single-page UI (src/fifufa-ui/src/App.jsx).

The component owns six pieces of transient state (topic, facts, three
loading flags, error) and three event handlers (fetchFacts,
fetchMoreFacts, getRandomWord) that issue HTTP requests and update the
state from the response.  Each handler is embedded as a pure function
from the pre-state and an abstract response to the chronological list of
state snapshots (one snapshot per setState call, in program order)
together with the request body it sent, if any.  JavaScript string
operations (trim, includes, split on the regex of one-or-more digits
followed by a period and a whitespace character) are embedded over
lists of characters.
-/

/-- Character class of the JavaScript regex \s and of String.prototype.trim:
ASCII whitespace, NBSP, the Unicode space separators, line separators and BOM. -/
def jsIsSpace (c : Char) : Bool :=
  c == ' ' || c == '\t' || c == '\n' || c == '\r' ||
  c == '\x0b' || c == '\x0c' || c == '\xa0' ||
  c == '\u1680' || ('\u2000' ≤ c && c ≤ '\u200a') ||
  c == '\u2028' || c == '\u2029' || c == '\u202f' || c == '\u205f' ||
  c == '\u3000' || c == '\ufeff'

/-- JavaScript String.prototype.trim on a character list: drop leading and
trailing whitespace. -/
def jsTrimL (cs : List Char) : List Char :=
  ((cs.dropWhile jsIsSpace).reverse.dropWhile jsIsSpace).reverse

/-- JavaScript String.prototype.trim. -/
def jsTrim (s : String) : String :=
  String.mk (jsTrimL s.toList)

/-- Does the second list start with the first? -/
def listStartsWith : List Char → List Char → Bool
  | [], _ => true
  | _ :: _, [] => false
  | a :: as, b :: bs => a == b && listStartsWith as bs

/-- Does the second list contain the first as a contiguous sublist?
Embeds JavaScript String.prototype.includes. -/
def listContains (needle : List Char) : List Char → Bool
  | [] => listStartsWith needle []
  | c :: t => listStartsWith needle (c :: t) || listContains needle t

/-- hay.includes needle, as in the error-message matching of fetchFacts. -/
def includesSub (hay needle : String) : Bool :=
  listContains needle.toList hay.toList

/-- After the digit run of the marker: require a period and then one
whitespace character; return the remainder after the match. -/
def matchDot : List Char → Option (List Char)
  | c :: w :: rest => if c = '.' && jsIsSpace w then some rest else none
  | _ => none

/-- Consume further digits greedily, then require the period and the
whitespace character. -/
def matchAfterDigits : List Char → Option (List Char)
  | [] => none
  | c :: cs => if c.isDigit then matchAfterDigits cs else matchDot (c :: cs)

/-- Match of the regex of one-or-more digits followed by a period and a
whitespace character at the head of the list; on success returns the
remainder after the matched text. -/
def matchMarker : List Char → Option (List Char)
  | [] => none
  | c :: cs => if c.isDigit then matchAfterDigits cs else none

/-- Scanning loop of the JavaScript regex split: walk the string left to
right, cut at each leftmost match of the marker regex, accumulate the
current segment in reverse.  The fuel argument bounds the recursion and
is always at least the length of the list being scanned. -/
def splitGo : Nat → List Char → List Char → List (List Char)
  | _, acc, [] => [acc.reverse]
  | 0, acc, _ :: _ => [acc.reverse]
  | Nat.succ n, acc, c :: cs =>
    match matchMarker (c :: cs) with
    | some rest => acc.reverse :: splitGo n [] rest
    | none => splitGo n (c :: acc) cs

/-- JavaScript split on the regex of one-or-more digits followed by a
period and a whitespace character, as in data.facts.split in App.jsx. -/
def jsSplitNumbered (cs : List Char) : List (List Char) :=
  splitGo cs.length [] cs

/-- Spec-side search: the least index at which the numbered-list marker
occurs, together with the remainder after that occurrence. -/
def firstMarker : List Char → Option (Nat × List Char)
  | [] => none
  | c :: cs =>
    match matchMarker (c :: cs) with
    | some rest => some (0, rest)
    | none =>
      match firstMarker cs with
      | some (i, rest) => some (i + 1, rest)
      | none => none

/-- Spec-side split, following the specification text: repeatedly cut the
string at the leftmost occurrence of one-or-more digits followed by a
period and a whitespace character.  Written as a find-first-and-recurse
loop, to be compared with the scanning loop of the code. -/
def specSplitGo : Nat → List Char → List (List Char)
  | 0, cs => [cs]
  | Nat.succ n, cs =>
    match firstMarker cs with
    | none => [cs]
    | some (i, rest) => cs.take i :: specSplitGo n rest

/-- Spec-side split at every occurrence of the numbered-list marker. -/
def specSplitNumbered (cs : List Char) : List (List Char) :=
  specSplitGo cs.length cs

/-- The shape of the facts field of a response body: an array of strings,
a single string, or anything else (absent or of another type). -/
inductive FactsVal where
  | arr (xs : List String)
  | str (raw : String)
  | other
  deriving DecidableEq, Repr

/-- The cleanFacts computation of fetchFacts and fetchMoreFacts: an array
is taken as-is; a string is split on the numbered-list regex, each
segment trimmed, and empty segments removed; anything else gives []. -/
def cleanFactsOf : FactsVal → List String
  | FactsVal.arr xs => xs
  | FactsVal.str raw =>
      (((jsSplitNumbered raw.toList).map jsTrimL).filter
        (fun t => decide (0 < t.length))).map String.mk
  | FactsVal.other => []

/-- The catch branch of fetchFacts: map the caught error message to the
canned facts shown to the user, by substring matching. -/
def errFactsFor (msg : String) : List String :=
  if includesSub msg "429" || includesSub msg "Too many requests" then
    ["⏰ Too many requests! Please wait a moment and try again."]
  else if includesSub msg "500" || includesSub msg "Something went wrong" then
    ["🔧 Server issue detected. Try a different topic or wait a few minutes."]
  else
    ["🙏 Sorry, we couldn\u0027t fetch fun facts right now.",
     "📡 Possible reason: connectivity issue or API credit limit reached.",
     "💡 Please try again in a few minutes!"]

/-- JavaScript a || b for an optional string a: the default is used when
the field is absent or the empty string (falsy). -/
def jsOr : Option String → String → String
  | some v, d => if v = "" then d else v
  | none, d => d

/-- The component state of App.jsx: topic, facts, the three loading
flags, and the error message. -/
structure St where
  topic : String
  facts : List String
  loading : Bool
  loadingMore : Bool
  loadingRandomWord : Bool
  error : String
  deriving DecidableEq, Repr

/-- setTopic of App.jsx. -/
def setTopic (s : St) (v : String) : St :=
  ⟨v, s.facts, s.loading, s.loadingMore, s.loadingRandomWord, s.error⟩

/-- setFacts of App.jsx. -/
def setFacts (s : St) (v : List String) : St :=
  ⟨s.topic, v, s.loading, s.loadingMore, s.loadingRandomWord, s.error⟩

/-- setLoading of App.jsx. -/
def setLoading (s : St) (v : Bool) : St :=
  ⟨s.topic, s.facts, v, s.loadingMore, s.loadingRandomWord, s.error⟩

/-- setLoadingMore of App.jsx. -/
def setLoadingMore (s : St) (v : Bool) : St :=
  ⟨s.topic, s.facts, s.loading, v, s.loadingRandomWord, s.error⟩

/-- setLoadingRandomWord of App.jsx. -/
def setLoadingRandomWord (s : St) (v : Bool) : St :=
  ⟨s.topic, s.facts, s.loading, s.loadingMore, v, s.error⟩

/-- setError of App.jsx. -/
def setError (s : St) (v : String) : St :=
  ⟨s.topic, s.facts, s.loading, s.loadingMore, s.loadingRandomWord, v⟩

/-- The state at the end of a snapshot list, or the pre-state when no
setState call happened. -/
def finalSt (s : St) : List St → St
  | [] => s
  | x :: t => finalSt x t

/-- The JSON body sent to POST /api/facts: a topic field and an optional
more field. -/
structure FactsBody where
  topic : String
  more : Option Bool
  deriving DecidableEq, Repr

/-- Abstract outcome of a fetch of /api/facts: the promise chain rejects
with an error message, or resolves with an ok flag, an optional error
field and the facts field of the parsed body. -/
inductive FactsResp where
  | reject (msg : String)
  | resolve (ok : Bool) (err : Option String) (facts : FactsVal)
  deriving DecidableEq, Repr

/-- Embedding of fetchFacts (App.jsx lines 21-80): validate the trimmed
topic, then clear the error, raise the loading flag, clear the facts,
send the request, and either store the reshaped facts or, on error,
store the canned error facts; finally the loading flag is lowered.
Returns the snapshot after each setState call, in program order, and the
request body sent, if any. -/
def fetchFacts (s : St) (r : FactsResp) : List St × Option FactsBody :=
  if jsTrim s.topic = "" then
    ([setError s "Please enter a topic first!"], none)
  else if (jsTrim s.topic).length < 2 then
    ([setError s "Topic too short! Please enter at least 2 characters."], none)
  else if 50 < (jsTrim s.topic).length then
    ([setError s "Topic too long! Please keep it under 50 characters."], none)
  else
    let s1 := setError s ""
    let s2 := setLoading s1 true
    let s3 := setFacts s2 []
    let body : FactsBody := FactsBody.mk (jsTrim s.topic) none
    match r with
    | FactsResp.resolve true _ fv =>
        let s4 := setFacts s3 (cleanFactsOf fv)
        ([s1, s2, s3, s4, setLoading s4 false], some body)
    | FactsResp.resolve false e _ =>
        let s4 := setFacts s3 (errFactsFor (jsOr e "Failed to fetch facts"))
        ([s1, s2, s3, s4, setLoading s4 false], some body)
    | FactsResp.reject msg =>
        let s4 := setFacts s3 (errFactsFor msg)
        ([s1, s2, s3, s4, setLoading s4 false], some body)

/-- Embedding of fetchMoreFacts (App.jsx lines 82-113): return at once on
an empty topic; otherwise raise loadingMore, send the request with the
untrimmed topic and more set to true, and append either the reshaped
facts or the single canned failure string; finally loadingMore is
lowered.  The caught error message is never inspected. -/
def fetchMoreFacts (s : St) (r : FactsResp) : List St × Option FactsBody :=
  if s.topic = "" then ([], none)
  else
    let s1 := setLoadingMore s true
    let body : FactsBody := FactsBody.mk s.topic (some true)
    match r with
    | FactsResp.resolve true _ fv =>
        let s2 := setFacts s1 (s1.facts ++ cleanFactsOf fv)
        ([s1, s2, setLoadingMore s2 false], some body)
    | FactsResp.resolve false _ _ =>
        let s2 := setFacts s1
          (s1.facts ++ ["🙏 Sorry, couldn\u0027t fetch more facts."])
        ([s1, s2, setLoadingMore s2 false], some body)
    | FactsResp.reject _ =>
        let s2 := setFacts s1
          (s1.facts ++ ["🙏 Sorry, couldn\u0027t fetch more facts."])
        ([s1, s2, setLoadingMore s2 false], some body)

/-- Abstract outcome of a fetch of GET /api/random-words: rejection, or
resolution with an ok flag, an optional error field, the word and the
remaining count of the parsed body. -/
inductive RandResp where
  | reject (msg : String)
  | resolve (ok : Bool) (err : Option String) (word : String) (remaining : Int)
  deriving DecidableEq, Repr

/-- Embedding of getRandomWord (App.jsx lines 115-134): raise
loadingRandomWord; on an ok response store the word as the topic and
clear the error; on a non-ok response or a rejection set the fixed
failure message; finally loadingRandomWord is lowered. -/
def getRandomWord (s : St) (r : RandResp) : List St :=
  let s1 := setLoadingRandomWord s true
  match r with
  | RandResp.resolve true _ w _ =>
      let s2 := setTopic s1 w
      let s3 := setError s2 ""
      [s1, s2, s3, setLoadingRandomWord s3 false]
  | RandResp.resolve false _ _ _ =>
      let s2 := setError s1 "Failed to get random topic. Please try again."
      [s1, s2, setLoadingRandomWord s2 false]
  | RandResp.reject _ =>
      let s2 := setError s1 "Failed to get random topic. Please try again."
      [s1, s2, setLoadingRandomWord s2 false]

/-- The disabled condition of the submit button (App.jsx line 324):
loading or blank trimmed topic. -/
def submitDisabled (s : St) : Bool :=
  s.loading || (jsTrim s.topic == "")

/-- The disabled condition of the More Facts button (App.jsx line 441). -/
def moreButtonDisabled (s : St) : Bool :=
  s.loadingMore

/-- The disabled condition of the random-topic button (App.jsx line 290). -/
def randomButtonDisabled (s : St) : Bool :=
  s.loadingRandomWord

/-- A successful matchDot consumes exactly two characters. -/
theorem matchDot_length {cs rest : List Char} (h : matchDot cs = some rest) :
    cs.length = rest.length + 2 := by
  match cs with
  | [] => simp [matchDot] at h
  | [c] => simp [matchDot] at h
  | c :: w :: t =>
    simp only [matchDot] at h
    split at h
    · cases h
      simp
    · simp at h

/-- A successful matchAfterDigits consumes at least one character. -/
theorem matchAfterDigits_lt : ∀ {cs rest : List Char},
    matchAfterDigits cs = some rest → rest.length < cs.length := by
  intro cs
  induction cs with
  | nil => intro rest h; simp [matchAfterDigits] at h
  | cons c t ih =>
    intro rest h
    simp only [matchAfterDigits] at h
    split at h
    · exact Nat.lt_succ_of_lt (ih h)
    · have h2 := matchDot_length h
      simp only [List.length_cons] at h2 ⊢
      omega

/-- A successful marker match consumes at least one character. -/
theorem matchMarker_lt : ∀ {cs rest : List Char},
    matchMarker cs = some rest → rest.length < cs.length := by
  intro cs rest h
  cases cs with
  | nil => simp [matchMarker] at h
  | cons c t =>
    simp only [matchMarker] at h
    split at h
    · exact Nat.lt_succ_of_lt (matchAfterDigits_lt h)
    · simp at h

/-- The remainder after the first marker occurrence is shorter than the
whole string. -/
theorem firstMarker_lt : ∀ {cs : List Char} {i : Nat} {rest : List Char},
    firstMarker cs = some (i, rest) → rest.length < cs.length := by
  intro cs
  induction cs with
  | nil => intro i rest h; simp [firstMarker] at h
  | cons c t ih =>
    intro i rest h
    simp only [firstMarker] at h
    split at h
    · rename_i r hm
      simp only [Option.some.injEq, Prod.mk.injEq] at h
      obtain ⟨h1, h2⟩ := h
      subst h2
      exact matchMarker_lt hm
    · split at h
      · rename_i hm p j r hf
        simp only [Option.some.injEq, Prod.mk.injEq] at h
        obtain ⟨h1, h2⟩ := h
        subst h2
        exact Nat.lt_succ_of_lt (ih hf)
      · simp at h

/-- The spec-side split does not depend on the fuel, as long as the fuel
covers the length of the string. -/
theorem specSplitGo_fuel : ∀ (m n : Nat) (cs : List Char),
    cs.length ≤ m → cs.length ≤ n → specSplitGo m cs = specSplitGo n cs := by
  intro m
  induction m with
  | zero =>
    intro n cs hm hn
    have hcs : cs = [] := List.length_eq_zero.mp (Nat.le_zero.mp hm)
    subst hcs
    cases n with
    | zero => rfl
    | succ k => simp [specSplitGo, firstMarker]
  | succ m ih =>
    intro n cs hm hn
    cases n with
    | zero =>
      have hcs : cs = [] := List.length_eq_zero.mp (Nat.le_zero.mp hn)
      subst hcs
      simp [specSplitGo, firstMarker]
    | succ k =>
      simp only [specSplitGo]
      cases hf : firstMarker cs with
      | none => rfl
      | some p =>
        obtain ⟨i, rest⟩ := p
        have hlt := firstMarker_lt hf
        exact congrArg (List.cons (cs.take i))
          (ih k rest (by omega) (by omega))

/-- One-step unfolding of the spec-side split. -/
theorem specSplitNumbered_unfold (cs : List Char) :
    specSplitNumbered cs =
      match firstMarker cs with
      | none => [cs]
      | some (i, rest) => cs.take i :: specSplitNumbered rest := by
  cases cs with
  | nil => simp [specSplitNumbered, specSplitGo, firstMarker]
  | cons c t =>
    show specSplitGo (t.length + 1) (c :: t) = _
    simp only [specSplitGo]
    cases hf : firstMarker (c :: t) with
    | none => rfl
    | some p =>
      obtain ⟨i, rest⟩ := p
      have hlt := firstMarker_lt hf
      have hle : rest.length ≤ t.length := by
        simp only [List.length_cons] at hlt; omega
      exact congrArg (List.cons ((c :: t).take i))
        (specSplitGo_fuel t.length rest.length rest hle (Nat.le_refl _))

/-- The scanning loop of the code computes the find-first-and-recurse
split of the spec, for any accumulator and sufficient fuel. -/
theorem splitGo_eq : ∀ (n : Nat) (acc cs : List Char), cs.length ≤ n →
    splitGo n acc cs =
      match firstMarker cs with
      | none => [acc.reverse ++ cs]
      | some (i, rest) => (acc.reverse ++ cs.take i) :: specSplitNumbered rest := by
  intro n
  induction n with
  | zero =>
    intro acc cs h
    have hcs : cs = [] := List.length_eq_zero.mp (Nat.le_zero.mp h)
    subst hcs
    simp [splitGo, firstMarker]
  | succ n ih =>
    intro acc cs h
    cases cs with
    | nil => simp [splitGo, firstMarker]
    | cons c t =>
      have ht : t.length ≤ n := by simp only [List.length_cons] at h; omega
      cases hm : matchMarker (c :: t) with
      | some rest =>
        have hlt := matchMarker_lt hm
        have hr : rest.length ≤ n := by
          simp only [List.length_cons] at hlt; omega
        have hf : firstMarker (c :: t) = some (0, rest) := by
          simp [firstMarker, hm]
        simp only [splitGo, hm, hf]
        rw [ih [] rest hr, specSplitNumbered_unfold rest]
        cases hf2 : firstMarker rest with
        | none => simp
        | some p =>
          obtain ⟨j, r2⟩ := p
          simp
      | none =>
        simp only [splitGo, hm]
        rw [ih (c :: acc) t ht]
        cases hf2 : firstMarker t with
        | none =>
          have hf : firstMarker (c :: t) = none := by
            simp [firstMarker, hm, hf2]
          simp [hf, List.reverse_cons, List.append_assoc]
        | some p =>
          obtain ⟨i, rest⟩ := p
          have hf : firstMarker (c :: t) = some (i + 1, rest) := by
            simp [firstMarker, hm, hf2]
          simp [hf, List.reverse_cons, List.append_assoc, List.take_succ_cons]

/-- The split of the code agrees with the split of the spec. -/
theorem jsSplitNumbered_eq_spec (cs : List Char) :
    jsSplitNumbered cs = specSplitNumbered cs := by
  rw [jsSplitNumbered, splitGo_eq cs.length [] cs (Nat.le_refl _),
    specSplitNumbered_unfold cs]
  cases hf : firstMarker cs with
  | none => simp
  | some p =>
    obtain ⟨i, rest⟩ := p
    simp

/-- The head surviving dropWhile does not satisfy the predicate. -/
theorem dropWhile_head_false {p : Char → Bool} : ∀ {l : List Char} {c : Char}
    {t : List Char}, List.dropWhile p l = c :: t → p c = false := by
  intro l
  induction l with
  | nil => intro c t h; simp [List.dropWhile] at h
  | cons a as ih =>
    intro c t h
    by_cases hp : p a
    · simp only [List.dropWhile, hp] at h
      exact ih h
    · simp only [List.dropWhile, Bool.not_eq_true] at hp
      simp only [List.dropWhile, hp] at h
      cases h
      exact hp

/-- dropWhile fixes a list whose head does not satisfy the predicate. -/
theorem dropWhile_self {p : Char → Bool} {l : List Char}
    (h : ∀ c t, l = c :: t → p c = false) : List.dropWhile p l = l := by
  cases l with
  | nil => rfl
  | cons c t =>
    have hc := h c t rfl
    simp [List.dropWhile, hc]

/-- dropWhile is idempotent. -/
theorem dropWhile_idem {p : Char → Bool} (l : List Char) :
    List.dropWhile p (List.dropWhile p l) = List.dropWhile p l := by
  apply dropWhile_self
  intro c t h
  exact dropWhile_head_false h

/-- The first character of a trimmed string is not whitespace. -/
theorem jsTrimL_head_false {cs : List Char} {c : Char} {t : List Char}
    (h : jsTrimL cs = c :: t) : jsIsSpace c = false := by
  have key : (List.dropWhile jsIsSpace ((List.dropWhile jsIsSpace cs).reverse)).reverse
      ++ (List.takeWhile jsIsSpace ((List.dropWhile jsIsSpace cs).reverse)).reverse
      = List.dropWhile jsIsSpace cs := by
    rw [← List.reverse_append, List.takeWhile_append_dropWhile, List.reverse_reverse]
  rw [jsTrimL] at h
  rw [h] at key
  exact dropWhile_head_false (l := cs) (by simpa using key.symm)

/-- Trimming is idempotent. -/
theorem jsTrimL_idem (cs : List Char) : jsTrimL (jsTrimL cs) = jsTrimL cs := by
  have step1 : List.dropWhile jsIsSpace (jsTrimL cs) = jsTrimL cs := by
    apply dropWhile_self
    intro c t h
    exact jsTrimL_head_false h
  have step2 : List.dropWhile jsIsSpace ((jsTrimL cs).reverse) = (jsTrimL cs).reverse := by
    rw [jsTrimL, List.reverse_reverse]
    exact dropWhile_idem _
  show ((List.dropWhile jsIsSpace (jsTrimL cs)).reverse.dropWhile jsIsSpace).reverse
      = jsTrimL cs
  rw [step1, step2, List.reverse_reverse]

/-- Claim C2: for a string payload the resulting facts array equals the
string split at every occurrence of one-or-more digits followed by a
period and a whitespace character, the segments trimmed and segments
empty after trimming removed; an array payload is taken as-is. -/
theorem C2_response_reshaping (raw : String) (xs : List String) :
    cleanFactsOf (FactsVal.str raw) =
      (((specSplitNumbered raw.toList).map jsTrimL).filter
        (fun t => !t.isEmpty)).map String.mk
  ∧ cleanFactsOf (FactsVal.arr xs) = xs := by
  constructor
  · have hp : (fun t : List Char => decide (0 < t.length))
        = fun t : List Char => !t.isEmpty := by
      funext t
      cases t <;> simp
    simp only [cleanFactsOf, jsSplitNumbered_eq_spec, hp]
  · rfl

/-- Claim C10: every string produced by parsing a string-typed payload is
nonempty and carries no leading or trailing whitespace. -/
theorem C10_parsed_facts_clean (raw t : String)
    (h : t ∈ cleanFactsOf (FactsVal.str raw)) :
    0 < t.length ∧ jsTrim t = t := by
  simp only [cleanFactsOf, List.mem_map, List.mem_filter] at h
  obtain ⟨l, ⟨⟨seg, hseg, hls⟩, hpos⟩, ht⟩ := h
  subst ht
  constructor
  · exact (by simpa using hpos : 0 < l.length)
  · show String.mk (jsTrimL (String.mk l).toList) = String.mk l
    subst hls
    rw [show (String.mk (jsTrimL seg)).toList = jsTrimL seg from rfl, jsTrimL_idem]

/-- Concrete instance of C10 at a real numbered-list payload. -/
theorem C10_parsed_facts_clean_witness :
    "hello" ∈ cleanFactsOf (FactsVal.str "1. hello 2. world")
  ∧ (0 < "hello".length ∧ jsTrim "hello" = "hello") :=
  ⟨by decide, C10_parsed_facts_clean "1. hello 2. world" "hello" (by decide)⟩

/-- Claim C4: a topic that trims to the empty string is rejected with the
required-field error; no request is sent, facts and loading unchanged. -/
theorem C4_empty_topic_required_error (s : St) (r : FactsResp)
    (h : jsTrim s.topic = "") :
    (fetchFacts s r).2 = none
  ∧ (finalSt s (fetchFacts s r).1).error = "Please enter a topic first!"
  ∧ (finalSt s (fetchFacts s r).1).facts = s.facts
  ∧ (finalSt s (fetchFacts s r).1).loading = s.loading := by
  simp [fetchFacts, h, finalSt, setError]

/-- Concrete instance of C4 at a whitespace topic. -/
theorem C4_empty_topic_required_error_witness :
    jsTrim (St.mk " " ["A"] false false false "").topic = ""
  ∧ ((fetchFacts (St.mk " " ["A"] false false false "") (FactsResp.reject "x")).2 = none
  ∧ (finalSt (St.mk " " ["A"] false false false "")
      (fetchFacts (St.mk " " ["A"] false false false "") (FactsResp.reject "x")).1).error
      = "Please enter a topic first!"
  ∧ (finalSt (St.mk " " ["A"] false false false "")
      (fetchFacts (St.mk " " ["A"] false false false "") (FactsResp.reject "x")).1).facts
      = (St.mk " " ["A"] false false false "").facts
  ∧ (finalSt (St.mk " " ["A"] false false false "")
      (fetchFacts (St.mk " " ["A"] false false false "") (FactsResp.reject "x")).1).loading
      = (St.mk " " ["A"] false false false "").loading) :=
  ⟨by decide, C4_empty_topic_required_error _ (FactsResp.reject "x") (by decide)⟩

/-- Claim C9: with an empty topic, fetchMoreFacts returns at once: no
snapshot is produced, no request is sent, and the state is unchanged. -/
theorem C9_more_noop_on_empty_topic (s : St) (r : FactsResp)
    (h : s.topic = "") :
    fetchMoreFacts s r = ([], none) ∧ finalSt s (fetchMoreFacts s r).1 = s := by
  simp [fetchMoreFacts, h, finalSt]

/-- Concrete instance of C9 at the empty topic. -/
theorem C9_more_noop_on_empty_topic_witness :
    fetchMoreFacts (St.mk "" ["A"] false false false "e") (FactsResp.reject "429")
      = ([], none)
  ∧ finalSt (St.mk "" ["A"] false false false "e")
      (fetchMoreFacts (St.mk "" ["A"] false false false "e") (FactsResp.reject "429")).1
      = St.mk "" ["A"] false false false "e" :=
  C9_more_noop_on_empty_topic _ (FactsResp.reject "429") (by decide)

/-- Claim C1 as stated is false: a successful submit-topic run issues the
request and removes a fact that was previously present. -/
theorem C1_facts_append_only_counterexample :
    "A" ∈ (St.mk "ok" ["A"] false false false "").facts
  ∧ (fetchFacts (St.mk "ok" ["A"] false false false "")
      (FactsResp.resolve true none (FactsVal.arr ["B"]))).2.isSome = true
  ∧ "A" ∉ (finalSt (St.mk "ok" ["A"] false false false "")
      (fetchFacts (St.mk "ok" ["A"] false false false "")
        (FactsResp.resolve true none (FactsVal.arr ["B"]))).1).facts := by
  decide

/-- Claim C1 (amended): the load-more operation only ever appends to the
facts sequence, in its success and error branches alike; the
submit-topic operation instead replaces the sequence, a successful run
storing exactly the reshaped response. -/
theorem C1_facts_append_only (s : St) (r : FactsResp) (e : Option String)
    (fv : FactsVal) :
    (∀ st ∈ (fetchMoreFacts s r).1, s.facts <+: st.facts)
  ∧ ((fetchFacts s (FactsResp.resolve true e fv)).2.isSome = true →
      (finalSt s (fetchFacts s (FactsResp.resolve true e fv)).1).facts
        = cleanFactsOf fv) := by
  constructor
  · intro st hst
    by_cases hm : s.topic = ""
    · simp [fetchMoreFacts, hm] at hst
    · cases r with
      | reject msg =>
        simp only [fetchMoreFacts, if_neg hm, List.mem_cons, List.not_mem_nil,
          or_false] at hst
        rcases hst with rfl | rfl | rfl
        · exact List.prefix_refl _
        · exact List.prefix_append _ _
        · exact List.prefix_append _ _
      | resolve ok e2 fv2 =>
        cases ok with
        | true =>
          simp only [fetchMoreFacts, if_neg hm, List.mem_cons, List.not_mem_nil,
            or_false] at hst
          rcases hst with rfl | rfl | rfl
          · exact List.prefix_refl _
          · exact List.prefix_append _ _
          · exact List.prefix_append _ _
        | false =>
          simp only [fetchMoreFacts, if_neg hm, List.mem_cons, List.not_mem_nil,
            or_false] at hst
          rcases hst with rfl | rfl | rfl
          · exact List.prefix_refl _
          · exact List.prefix_append _ _
          · exact List.prefix_append _ _
  · intro hs
    by_cases h0 : jsTrim s.topic = ""
    · simp [fetchFacts, h0] at hs
    · by_cases h1 : (jsTrim s.topic).length < 2
      · simp [fetchFacts, h0, h1] at hs
      · by_cases h2 : 50 < (jsTrim s.topic).length
        · simp [fetchFacts, h0, h1, h2] at hs
        · simp [fetchFacts, h0, h1, h2, finalSt, setFacts, setLoading]

/-- Concrete instance of the amended C1: load-more keeps the old fact as
a prefix, and a successful submit stores the reshaped response. -/
theorem C1_facts_append_only_witness :
    (St.mk "ok" ["A"] false false false "").facts <+:
      (finalSt (St.mk "ok" ["A"] false false false "")
        (fetchMoreFacts (St.mk "ok" ["A"] false false false "")
          (FactsResp.reject "z")).1).facts
  ∧ (finalSt (St.mk "ok" ["A"] false false false "")
      (fetchFacts (St.mk "ok" ["A"] false false false "")
        (FactsResp.resolve true none (FactsVal.arr ["B"]))).1).facts
      = cleanFactsOf (FactsVal.arr ["B"]) :=
  ⟨(C1_facts_append_only (St.mk "ok" ["A"] false false false "")
      (FactsResp.reject "z") none (FactsVal.arr ["B"])).1 _ (by decide),
   (C1_facts_append_only (St.mk "ok" ["A"] false false false "")
      (FactsResp.reject "z") none (FactsVal.arr ["B"])).2 (by decide)⟩

/-- Claim C3 as stated is false: the trimmed topic of length 1 lies in
the 0-50 band, yet it is rejected with the too-short error and no
request is issued. -/
theorem C3_topic_validation_counterexample :
    (jsTrim (St.mk "a" [] false false false "").topic).length ≤ 50
  ∧ (fetchFacts (St.mk "a" [] false false false "") (FactsResp.reject "x")).2 = none
  ∧ (finalSt (St.mk "a" [] false false false "")
      (fetchFacts (St.mk "a" [] false false false "") (FactsResp.reject "x")).1).error
      = "Topic too short! Please enter at least 2 characters." := by
  decide

/-- Claim C3 (amended): the request is issued exactly when the trimmed
length lies in 2-50, and a trimmed topic longer than 50 characters is
rejected with the too-long error and no request. -/
theorem C3_topic_validation (s : St) (r : FactsResp) :
    ((fetchFacts s r).2 =
      if 2 ≤ (jsTrim s.topic).length ∧ (jsTrim s.topic).length ≤ 50
      then some (FactsBody.mk (jsTrim s.topic) none) else none)
  ∧ (50 < (jsTrim s.topic).length →
      (fetchFacts s r).2 = none
    ∧ (finalSt s (fetchFacts s r).1).error
        = "Topic too long! Please keep it under 50 characters.") := by
  by_cases h0 : jsTrim s.topic = ""
  · have hl : (jsTrim s.topic).length = 0 := by simp [h0]
    constructor
    · simp [fetchFacts, h0, hl]
    · intro hgt; omega
  · by_cases h1 : (jsTrim s.topic).length < 2
    · have hno : ¬(2 ≤ (jsTrim s.topic).length ∧ (jsTrim s.topic).length ≤ 50) := by
        omega
      constructor
      · simp [fetchFacts, h0, h1, hno]
      · intro hgt; omega
    · by_cases h2 : 50 < (jsTrim s.topic).length
      · have hno : ¬(2 ≤ (jsTrim s.topic).length ∧ (jsTrim s.topic).length ≤ 50) := by
          omega
        constructor
        · simp [fetchFacts, h0, h1, h2, hno]
        · intro hgt
          constructor
          · simp [fetchFacts, h0, h1, h2]
          · simp [fetchFacts, h0, h1, h2, finalSt, setError]
      · have hyes : 2 ≤ (jsTrim s.topic).length ∧ (jsTrim s.topic).length ≤ 50 := by
          omega
        constructor
        · cases r with
          | reject m => simp [fetchFacts, h0, h1, h2, hyes]
          | resolve ok e fv => cases ok <;> simp [fetchFacts, h0, h1, h2, hyes]
        · intro hgt; omega

/-- Concrete instance of the amended C3 at a 51-character trimmed topic. -/
theorem C3_topic_validation_witness :
    50 < (jsTrim (St.mk "aaaaaaaaaaaaaaaaaaaaaaaaaaaaaaaaaaaaaaaaaaaaaaaaaaa"
        [] false false false "").topic).length
  ∧ ((fetchFacts (St.mk "aaaaaaaaaaaaaaaaaaaaaaaaaaaaaaaaaaaaaaaaaaaaaaaaaaa"
        [] false false false "") (FactsResp.reject "x")).2 = none
    ∧ (finalSt (St.mk "aaaaaaaaaaaaaaaaaaaaaaaaaaaaaaaaaaaaaaaaaaaaaaaaaaa"
        [] false false false "")
        (fetchFacts (St.mk "aaaaaaaaaaaaaaaaaaaaaaaaaaaaaaaaaaaaaaaaaaaaaaaaaaa"
          [] false false false "") (FactsResp.reject "x")).1).error
        = "Topic too long! Please keep it under 50 characters.") :=
  ⟨by decide,
   (C3_topic_validation (St.mk "aaaaaaaaaaaaaaaaaaaaaaaaaaaaaaaaaaaaaaaaaaaaaaaaaaa"
      [] false false false "") (FactsResp.reject "x")).2 (by decide)⟩

/-- Claim C5 as stated is false: the load-more handler maps a caught
error whose message contains 429 to its single fixed failure string,
which is not a rate-limit string. -/
theorem C5_error_mapping_counterexample :
    includesSub "429" "429" = true
  ∧ (finalSt (St.mk "x" [] false false false "")
      (fetchMoreFacts (St.mk "x" [] false false false "")
        (FactsResp.reject "429")).1).facts
      = ["🙏 Sorry, couldn\u0027t fetch more facts."]
  ∧ ("🙏 Sorry, couldn\u0027t fetch more facts." : String)
      ≠ "⏰ Too many requests! Please wait a moment and try again." := by
  decide

/-- Claim C5 (amended): only the submit-topic handler maps a caught error
by substring matching on its message (429 or Too many requests to the
rate-limit string, else 500 or Something went wrong to the server-issue
string, else the three-line generic fallback, shown via the facts list);
the load-more handler appends one fixed failure string and the
random-topic handler sets one fixed error string, whatever the message. -/
theorem C5_error_mapping (s : St) (msg : String)
    (h2 : 2 ≤ (jsTrim s.topic).length) (h50 : (jsTrim s.topic).length ≤ 50)
    (hmore : s.topic ≠ "") :
    (finalSt s (fetchFacts s (FactsResp.reject msg)).1).facts =
      (if includesSub msg "429" || includesSub msg "Too many requests" then
        ["⏰ Too many requests! Please wait a moment and try again."]
      else if includesSub msg "500" || includesSub msg "Something went wrong" then
        ["🔧 Server issue detected. Try a different topic or wait a few minutes."]
      else
        ["🙏 Sorry, we couldn\u0027t fetch fun facts right now.",
         "📡 Possible reason: connectivity issue or API credit limit reached.",
         "💡 Please try again in a few minutes!"])
  ∧ (finalSt s (fetchMoreFacts s (FactsResp.reject msg)).1).facts
      = s.facts ++ ["🙏 Sorry, couldn\u0027t fetch more facts."]
  ∧ (finalSt s (getRandomWord s (RandResp.reject msg))).error
      = "Failed to get random topic. Please try again." := by
  have h0 : ¬ jsTrim s.topic = "" := by
    intro h
    rw [h] at h2
    simp at h2
  have h1 : ¬ (jsTrim s.topic).length < 2 := by omega
  have hgt : ¬ 50 < (jsTrim s.topic).length := by omega
  refine ⟨?_, ?_, ?_⟩
  · simp [fetchFacts, h0, h1, hgt, finalSt, setFacts, setLoading, setError,
      errFactsFor]
  · simp [fetchMoreFacts, hmore, finalSt, setFacts, setLoadingMore]
  · simp [getRandomWord, finalSt, setError, setLoadingRandomWord]

/-- Concrete instance of the amended C5 at the message 429. -/
theorem C5_error_mapping_witness :
    (finalSt (St.mk "ok" ["F"] false false false "")
      (fetchFacts (St.mk "ok" ["F"] false false false "")
        (FactsResp.reject "429")).1).facts =
      (if includesSub "429" "429" || includesSub "429" "Too many requests" then
        ["⏰ Too many requests! Please wait a moment and try again."]
      else if includesSub "429" "500" || includesSub "429" "Something went wrong" then
        ["🔧 Server issue detected. Try a different topic or wait a few minutes."]
      else
        ["🙏 Sorry, we couldn\u0027t fetch fun facts right now.",
         "📡 Possible reason: connectivity issue or API credit limit reached.",
         "💡 Please try again in a few minutes!"])
  ∧ (finalSt (St.mk "ok" ["F"] false false false "")
      (fetchMoreFacts (St.mk "ok" ["F"] false false false "")
        (FactsResp.reject "429")).1).facts
      = (St.mk "ok" ["F"] false false false "").facts
        ++ ["🙏 Sorry, couldn\u0027t fetch more facts."]
  ∧ (finalSt (St.mk "ok" ["F"] false false false "")
      (getRandomWord (St.mk "ok" ["F"] false false false "")
        (RandResp.reject "429"))).error
      = "Failed to get random topic. Please try again." :=
  C5_error_mapping (St.mk "ok" ["F"] false false false "") "429"
    (by decide) (by decide) (by decide)

/-- Claim C6: whenever a loading flag is raised the matching button is
disabled, and each handler raises its own flag before its fetch and
lowers it after the request completes, on success and on failure. -/
theorem C6_loading_flags (s : St) (r rm : FactsResp) (rr : RandResp) :
    (s.loading = true → submitDisabled s = true)
  ∧ (s.loadingMore = true → moreButtonDisabled s = true)
  ∧ (s.loadingRandomWord = true → randomButtonDisabled s = true)
  ∧ ((fetchFacts s r).2.isSome = true →
      Option.map St.loading (((fetchFacts s r).1.drop 2).head?) = some true
    ∧ Option.map St.loading ((fetchFacts s r).1.getLast?) = some false)
  ∧ ((fetchMoreFacts s rm).2.isSome = true →
      Option.map St.loadingMore ((fetchMoreFacts s rm).1.head?) = some true
    ∧ Option.map St.loadingMore ((fetchMoreFacts s rm).1.getLast?) = some false)
  ∧ (Option.map St.loadingRandomWord ((getRandomWord s rr).head?) = some true
    ∧ Option.map St.loadingRandomWord ((getRandomWord s rr).getLast?) = some false) := by
  refine ⟨?_, ?_, ?_, ?_, ?_, ?_⟩
  · intro h
    simp [submitDisabled, h]
  · intro h
    exact h
  · intro h
    exact h
  · intro hs
    by_cases h0 : jsTrim s.topic = ""
    · simp [fetchFacts, h0] at hs
    · by_cases h1 : (jsTrim s.topic).length < 2
      · simp [fetchFacts, h0, h1] at hs
      · by_cases h2 : 50 < (jsTrim s.topic).length
        · simp [fetchFacts, h0, h1, h2] at hs
        · cases r with
          | reject m =>
            simp only [fetchFacts, if_neg h0, if_neg h1, if_neg h2]
            exact ⟨rfl, rfl⟩
          | resolve ok e fv =>
            cases ok with
            | true =>
              simp only [fetchFacts, if_neg h0, if_neg h1, if_neg h2]
              exact ⟨rfl, rfl⟩
            | false =>
              simp only [fetchFacts, if_neg h0, if_neg h1, if_neg h2]
              exact ⟨rfl, rfl⟩
  · intro hs
    by_cases hm : s.topic = ""
    · simp [fetchMoreFacts, hm] at hs
    · cases rm with
      | reject m =>
        simp only [fetchMoreFacts, if_neg hm]
        exact ⟨rfl, rfl⟩
      | resolve ok e fv =>
        cases ok with
        | true =>
          simp only [fetchMoreFacts, if_neg hm]
          exact ⟨rfl, rfl⟩
        | false =>
          simp only [fetchMoreFacts, if_neg hm]
          exact ⟨rfl, rfl⟩
  · cases rr with
    | reject m => exact ⟨rfl, rfl⟩
    | resolve ok e w n =>
      cases ok with
      | true => exact ⟨rfl, rfl⟩
      | false => exact ⟨rfl, rfl⟩

/-- Concrete instance of C6 with every flag raised and both requests
issued. -/
theorem C6_loading_flags_witness :
    submitDisabled (St.mk "ok" [] true true true "") = true
  ∧ moreButtonDisabled (St.mk "ok" [] true true true "") = true
  ∧ randomButtonDisabled (St.mk "ok" [] true true true "") = true
  ∧ (Option.map St.loading (((fetchFacts (St.mk "ok" [] true true true "")
        (FactsResp.reject "x")).1.drop 2).head?) = some true
    ∧ Option.map St.loading ((fetchFacts (St.mk "ok" [] true true true "")
        (FactsResp.reject "x")).1.getLast?) = some false)
  ∧ (Option.map St.loadingMore ((fetchMoreFacts (St.mk "ok" [] true true true "")
        (FactsResp.reject "x")).1.head?) = some true
    ∧ Option.map St.loadingMore ((fetchMoreFacts (St.mk "ok" [] true true true "")
        (FactsResp.reject "x")).1.getLast?) = some false)
  ∧ (Option.map St.loadingRandomWord ((getRandomWord (St.mk "ok" [] true true true "")
        (RandResp.reject "x")).head?) = some true
    ∧ Option.map St.loadingRandomWord ((getRandomWord (St.mk "ok" [] true true true "")
        (RandResp.reject "x")).getLast?) = some false) :=
  let T := C6_loading_flags (St.mk "ok" [] true true true "")
    (FactsResp.reject "x") (FactsResp.reject "x") (RandResp.reject "x")
  ⟨T.1 rfl, T.2.1 rfl, T.2.2.1 rfl, T.2.2.2.1 (by decide),
   T.2.2.2.2.1 (by decide), T.2.2.2.2.2⟩

/-- Claim C7: the submit-topic body carries the trimmed topic and no more
field; the load-more body carries the topic as-is and more set to true. -/
theorem C7_request_bodies (s : St) (r rm : FactsResp) :
    ((fetchFacts s r).2 = none
      ∨ (fetchFacts s r).2 = some (FactsBody.mk (jsTrim s.topic) none))
  ∧ ((fetchMoreFacts s rm).2 = none
      ∨ (fetchMoreFacts s rm).2 = some (FactsBody.mk s.topic (some true))) := by
  constructor
  · by_cases h0 : jsTrim s.topic = ""
    · left
      simp [fetchFacts, h0]
    · by_cases h1 : (jsTrim s.topic).length < 2
      · left
        simp [fetchFacts, h0, h1]
      · by_cases h2 : 50 < (jsTrim s.topic).length
        · left
          simp [fetchFacts, h0, h1, h2]
        · right
          cases r with
          | reject m => simp [fetchFacts, h0, h1, h2]
          | resolve ok e fv => cases ok <;> simp [fetchFacts, h0, h1, h2]
  · by_cases hm : s.topic = ""
    · left
      simp [fetchMoreFacts, hm]
    · right
      cases rm with
      | reject m => simp [fetchMoreFacts, hm]
      | resolve ok e fv => cases ok <;> simp [fetchMoreFacts, hm]

/-- Claim C8: a successful random-word response stores the word as the
topic and clears the error; a non-ok response or a rejection sets the
fixed failure message and leaves the topic unchanged. -/
theorem C8_random_word_contract (s : St) (w : String) (n : Int)
    (e : Option String) (msg : String) :
    (finalSt s (getRandomWord s (RandResp.resolve true e w n))).topic = w
  ∧ (finalSt s (getRandomWord s (RandResp.resolve true e w n))).error = ""
  ∧ (finalSt s (getRandomWord s (RandResp.resolve false e w n))).error
      = "Failed to get random topic. Please try again."
  ∧ (finalSt s (getRandomWord s (RandResp.resolve false e w n))).topic = s.topic
  ∧ (finalSt s (getRandomWord s (RandResp.reject msg))).error
      = "Failed to get random topic. Please try again."
  ∧ (finalSt s (getRandomWord s (RandResp.reject msg))).topic = s.topic :=
  ⟨rfl, rfl, rfl, rfl, rfl, rfl⟩
